import Mathlib

/-!
Verification of the pipelined execution-engine slice of the repository:
the streaming-aggregation source operator
(`StreamingAggSourceOperator::can_read` / `::get_block`), the data queue it
drains, the legacy-node fallback path, and the schema-variables scanner
(`SchemaVariablesScanner::get_next_block`).

The operator and scanner bodies are translated directly from the C++
sources.  The `DataQueue`, the legacy `ExecNode::pull` bridge and the
`Block` primitives are not part of the provided sources (only their
callers are); they are modelled from the specification, as marked in the
doc comment of each such definition.
-/

namespace Doris

/-- Error categories used by `Status`, following the spec's error taxonomy. -/
inductive ErrCode
  | internalError
  | invalidArgument
  | cancelled
  | upstreamFailure
  deriving DecidableEq, Repr

/-- A non-OK `Status`: an error code plus a message. -/
structure Err where
  code : ErrCode
  msg : String
  deriving DecidableEq, Repr

/-- Modelled from the spec: one typed column of a `Block`; `data` is the list
of cell values (row storage) and `cap` the allocated capacity, which
`clear_column_data` must leave in place for reuse. -/
structure Column where
  data : List String
  cap : Nat
  deriving DecidableEq, Repr

/-- Modelled from the spec: a `Block` (Batch) is an ordered sequence of typed
columns of equal length moving through the pipeline. -/
structure Block where
  columns : List Column
  deriving DecidableEq, Repr

/-- The empty block: no columns, zero rows. -/
def Block.empty : Block := ⟨[]⟩

/-- Row count of a block: the length of its first column's storage
(all columns of a well-formed block have equal length). -/
def Block.rows (b : Block) : Nat :=
  match b.columns with
  | [] => 0
  | c :: _ => c.data.length

/-- Modelled from the spec: `clear_column_data(n)` resets the row storage of
exactly the first `n` (materialized-slot) columns, leaving each column's
allocated capacity in place for reuse. -/
def Block.clear_column_data (b : Block) (n : Nat) : Block :=
  ⟨(b.columns.take n).map (fun c => ⟨[], c.cap⟩) ++ b.columns.drop n⟩

/-- A block has no rows when every column's row storage is empty. -/
def Block.no_rows (b : Block) : Prop :=
  ∀ c ∈ b.columns, c.data = []

/-- Modelled from the spec: the `DataQueue` (BlockQueue) hand-off buffer:
a FIFO sequence of ready blocks, a free-list of reusable blocks, the
producer-finished flag, the latched exhaustion flag (set when a pop finds
the queue empty after the producer finished — required so that the pop
that removes the last ready batch still delivers it, per the spec's
"the caller always receives a batch or a definitive EOS" and Scenario A),
and a pending error surfaced by queue operations (cancellation/upstream
failure). -/
structure DataQueue where
  ready : List Block
  freeBlocks : List Block
  finished : Bool
  exhausted : Bool
  pendingErr : Option Err
  deriving DecidableEq, Repr

/-- A fresh, empty queue. -/
def DataQueue.empty : DataQueue := ⟨[], [], false, false, none⟩

/-- Modelled from the spec: `is_exhausted()` — the latched exhaustion flag;
once true it never reverts. -/
def DataQueue.is_exhausted (q : DataQueue) : Bool := q.exhausted

/-- Source name used by the operator code for the exhaustion probe. -/
def DataQueue.data_exhausted (q : DataQueue) : Bool := q.is_exhausted

/-- Modelled from the spec: readiness probe — true if there is a batch to
consume or the producer has finished (so the consumer can make progress
either by consuming or by transitioning to the fallback/finish path). -/
def DataQueue.has_data_or_finished (q : DataQueue) : Bool :=
  !q.ready.isEmpty || q.finished

/-- Modelled from the spec: `mark_producer_finished()` — idempotent, sets the
finished flag. -/
def DataQueue.mark_producer_finished (q : DataQueue) : DataQueue :=
  { q with finished := true }

/-- Modelled from the spec: `push_ready(batch)` inserts at the tail of the
ready sequence.  After the producer has finished no further batches are
inserted (single-producer discipline; forced by the spec's invariant that
the queue is never observed non-empty and exhausted simultaneously). -/
def DataQueue.push_ready (q : DataQueue) (b : Block) : DataQueue :=
  if q.finished then q else { q with ready := q.ready ++ [b] }

/-- Modelled from the spec: `try_pop_ready()` removes and returns the head of
the ready sequence if non-empty; a pop that finds the queue empty with the
producer finished latches the exhaustion flag. -/
def DataQueue.try_pop_ready (q : DataQueue) : Option Block × DataQueue :=
  match q.ready with
  | [] => (none, if q.finished then { q with exhausted := true } else q)
  | b :: rest => (some b, { q with ready := rest })

/-- Modelled from the spec: `push_free(batch)` returns an emptied batch to the
free-list for reuse. -/
def DataQueue.push_free_block (q : DataQueue) (b : Block) : DataQueue :=
  { q with freeBlocks := q.freeBlocks ++ [b] }

/-- Modelled from the spec: `try_pop_free()` — producer-side allocation fast
path popping the head of the free-list. -/
def DataQueue.try_pop_free (q : DataQueue) : Option Block × DataQueue :=
  match q.freeBlocks with
  | [] => (none, q)
  | b :: rest => (some b, { q with freeBlocks := rest })

/-- Modelled from the spec: `get_block_from_queue` as called by the operator —
surfaces a pending queue error as a failed status, otherwise pops. -/
def DataQueue.get_block_from_queue (q : DataQueue) :
    Except Err (Option Block × DataQueue) :=
  match q.pendingErr with
  | some e => .error e
  | none => .ok q.try_pop_ready

/-- Well-formedness of a queue state: the latched exhaustion flag is only set
once the producer has finished and the ready sequence is empty. -/
def DataQueue.WF (q : DataQueue) : Prop :=
  q.exhausted = true → q.finished = true ∧ q.ready = []

/-- Modelled from the spec: the legacy blocking `ExecNode` bridge, holding the
data it still has to deliver and a pending error; `pull` consumes it. -/
structure ExecNode where
  pendingErr : Option Err
  batches : List Block
  deriving DecidableEq, Repr

/-- Modelled from the spec: `pull(state, batch, &eos) -> Status` — delivers
the next batch with `eos = false`, or an empty batch with `eos = true`
once drained; a pending error is surfaced as a failed status. -/
def ExecNode.pull (nd : ExecNode) : Except Err (Block × Bool × ExecNode) :=
  match nd.pendingErr with
  | some e => .error e
  | none =>
    match nd.batches with
    | [] => .ok (Block.empty, true, nd)
    | b :: rest => .ok (b, false, { nd with batches := rest })

/-- Result state of one source pull step. -/
inductive SourceState
  | RUNNING
  | DEPEND_ON_SOURCE
  | FINISHED
  deriving DecidableEq, Repr

/-- Ghost instrumentation: which collaborator calls a `get_block` step made,
in order.  Used only to state which operations a call performed. -/
inductive Ev
  | popQueue
  | pullNode
  | pushFree
  deriving DecidableEq, Repr

/-- Outcome of a successful `get_block` call: the output block, the updated
queue and node, the reported `SourceState`, and the ghost event trace. -/
structure GetBlockOut where
  block : Block
  queue : DataQueue
  node : ExecNode
  source_state : SourceState
  events : List Ev
  deriving DecidableEq, Repr

namespace StreamingAggSourceOperator

/-- Translation of `StreamingAggSourceOperator::can_read` (source lines
28–30): delegates to the bound queue's readiness probe. -/
def can_read (q : DataQueue) : Bool :=
  q.has_data_or_finished

/-- Translation of `StreamingAggSourceOperator::get_block` (source lines
32–54).  `n` is `_node->row_desc().num_materialized_slots()`; `q` the bound
queue, `nd` the legacy node, `b` the caller's output block.  A failed
status carries the ghost trace of calls made before the early return.
The `none` arm of the swap branch corresponds to dereferencing a null
`agg_block` in the C++ (unreachable when the scheduler honours
`can_read`). -/
def get_block (n : Nat) (q : DataQueue) (nd : ExecNode) (b : Block) :
    Except (Err × List Ev) GetBlockOut :=
  if !q.data_exhausted then
    match q.get_block_from_queue with
    | .error e => .error (e, [Ev.popQueue])
    | .ok (aggBlock, q1) =>
      if q1.data_exhausted then
        match nd.pull with
        | .error e => .error (e, [Ev.popQueue, Ev.pullNode])
        | .ok (outB, eos, nd1) =>
          .ok ⟨outB, q1, nd1, if eos then .FINISHED else .DEPEND_ON_SOURCE,
               [Ev.popQueue, Ev.pullNode]⟩
      else
        match aggBlock with
        | some ab =>
          .ok ⟨ab, q1.push_free_block (b.clear_column_data n), nd,
               .DEPEND_ON_SOURCE, [Ev.popQueue, Ev.pushFree]⟩
        | none => .error (⟨.internalError, "null agg_block"⟩, [Ev.popQueue])
  else
    match nd.pull with
    | .error e => .error (e, [Ev.pullNode])
    | .ok (outB, eos, nd1) =>
      .ok ⟨outB, q, nd1, if eos then .FINISHED else .DEPEND_ON_SOURCE,
           [Ev.pullNode]⟩

end StreamingAggSourceOperator

/-- The legacy node reports end-of-stream on its next pull. -/
def ExecNode.reportsEos (nd : ExecNode) : Prop :=
  ∃ b nd1, nd.pull = .ok (b, true, nd1)

/-- Error code of a failed result, `none` on success. -/
def errCodeOf {α : Type} (r : Except Err α) : Option ErrCode :=
  match r with
  | .error e => some e.code
  | .ok _ => none

/-- One (single-threaded interleaving of a) queue operation, used to state
invariants over all operation sequences. -/
inductive QOp
  | push_ready (b : Block)
  | try_pop_ready
  | push_free (b : Block)
  | try_pop_free
  | mark_producer_finished

/-- State transformer of one queue operation. -/
def DataQueue.apply (q : DataQueue) : QOp → DataQueue
  | .push_ready b => q.push_ready b
  | .try_pop_ready => q.try_pop_ready.2
  | .push_free b => q.push_free_block b
  | .try_pop_free => q.try_pop_free.2
  | .mark_producer_finished => q.mark_producer_finished

/-- Ownership/FIFO model of one producer→consumer queue, with batches named
by identifiers.  `producer`, `ready`, `consumer`, `freeList` are the four
possible holders of a batch; `pushed` and `popped` are ghost histories of
the identifiers pushed into and popped out of the ready sequence. -/
structure OwnState where
  producer : List Nat
  ready : List Nat
  consumer : List Nat
  freeList : List Nat
  pushed : List Nat
  popped : List Nat
  deriving DecidableEq, Repr

/-- All batches in the system, grouped by holder. -/
def OwnState.allOf (s : OwnState) : List Nat :=
  s.producer ++ s.ready ++ s.consumer ++ s.freeList

/-- Modelled from the spec: the queue operations as moves of one batch
between the four holders — the producer pushes a batch it holds to the
ready tail, the consumer pops the ready head, the consumer recycles a
batch it holds to the free-list, the producer takes the free-list head. -/
inductive OwnStep : OwnState → OwnState → Prop
  | push_ready (s : OwnState) (b : Nat) (h : b ∈ s.producer) :
      OwnStep s { s with producer := s.producer.erase b,
                         ready := s.ready ++ [b],
                         pushed := s.pushed ++ [b] }
  | pop_ready (s : OwnState) (b : Nat) (rest : List Nat)
      (h : s.ready = b :: rest) :
      OwnStep s { s with ready := rest,
                         consumer := s.consumer ++ [b],
                         popped := s.popped ++ [b] }
  | push_free (s : OwnState) (b : Nat) (h : b ∈ s.consumer) :
      OwnStep s { s with consumer := s.consumer.erase b,
                         freeList := s.freeList ++ [b] }
  | pop_free (s : OwnState) (b : Nat) (rest : List Nat)
      (h : s.freeList = b :: rest) :
      OwnStep s { s with freeList := rest,
                         producer := s.producer ++ [b] }

/-- Reachability by a sequence of queue operations. -/
inductive OwnReach (s0 : OwnState) : OwnState → Prop
  | refl : OwnReach s0 s0
  | step {s t : OwnState} : OwnReach s0 s → OwnStep s t → OwnReach s0 t

/-- An initial ownership state: nothing pushed or popped yet, ready sequence
empty. -/
def OwnState.Init (s : OwnState) : Prop :=
  s.ready = [] ∧ s.pushed = [] ∧ s.popped = []

/-- Translation of the `SchemaVariablesScanner` state read by
`get_next_block`: the `_is_init` flag and the fetched variable list
`_var_result.variables`. -/
structure SchemaVariablesScanner where
  is_init : Bool
  vars : List (String × String)
  deriving DecidableEq, Repr

/-- Modelled from the spec: `fill_dest_column` appends one string cell to the
destination column, here identified by its index. -/
def fill_dest_column (b : Block) (s : String) (idx : Nat) : Block :=
  ⟨b.columns.mapIdx (fun i c => if i = idx then ⟨c.data ++ [s], c.cap⟩ else c)⟩

/-- Translation of `SchemaVariablesScanner::_fill_block_impl` (source lines
76–93): appends every variable name to the first column, then every
variable value to the second column. -/
def SchemaVariablesScanner.fill_block_impl (s : SchemaVariablesScanner)
    (b : Block) : Except Err Block :=
  .ok (s.vars.foldl (fun bl kv => fill_dest_column bl kv.2 1)
        (s.vars.foldl (fun bl kv => fill_dest_column bl kv.1 0) b))

/-- Translation of `SchemaVariablesScanner::get_next_block` (source lines
61–74).  The C++ out-pointers `block` and `eos` are modelled as `Option`
arguments (`none` = null pointer); a successful call returns the filled
block and the value stored through `eos`. -/
def SchemaVariablesScanner.get_next_block (s : SchemaVariablesScanner)
    (block : Option Block) (eos : Option Bool) : Except Err (Block × Bool) :=
  if !s.is_init then .error ⟨.internalError, "call this before initial."⟩
  else
    match block, eos with
    | some b, some _ =>
      if s.vars.isEmpty then .ok (b, true)
      else
        match s.fill_block_impl b with
        | .error e => .error e
        | .ok b1 => .ok (b1, true)
    | _, _ => .error ⟨.internalError, "invalid parameter."⟩

/-- Spec-side description of "pull directly from the legacy node": the output
block, the eos-derived result state and the updated node all come from one
`pull` call, with the queue left in the given state. -/
def pullFallback (q : DataQueue) (nd : ExecNode) (evs : List Ev) :
    Except (Err × List Ev) GetBlockOut :=
  match nd.pull with
  | .error e => .error (e, evs ++ [Ev.pullNode])
  | .ok (outB, eos, nd1) =>
    .ok ⟨outB, q, nd1, if eos then .FINISHED else .DEPEND_ON_SOURCE,
         evs ++ [Ev.pullNode]⟩

/-- A queued batch of 100 rows, tagged by its index. -/
def scenarioBlock (i : Nat) : Block :=
  ⟨[⟨List.replicate 100 (toString i), 128⟩]⟩

/-- Scenario A queue: three ready batches of 100 rows, producer finished. -/
def qA : DataQueue :=
  ⟨[scenarioBlock 1, scenarioBlock 2, scenarioBlock 3], [], true, false, none⟩

/-- A legacy node that reports end-of-stream immediately. -/
def nodeA : ExecNode := ⟨none, []⟩

/-- A queued batch holding one row of data. -/
def blockW : Block := ⟨[⟨["stale"], 8⟩]⟩

/-- A caller-side output buffer still holding rows from a previous use. -/
def staleW : Block := ⟨[⟨["old1", "old2"], 16⟩]⟩

/-- The recycled form of `staleW`: row storage gone, capacity kept. -/
def clearW : Block := ⟨[⟨[], 16⟩]⟩

/-- A non-exhausted queue holding one ready batch, producer still running. -/
def qW1 : DataQueue := ⟨[blockW], [], false, false, none⟩

/-- The state of `qW1` after its ready batch is popped. -/
def qW1pop : DataQueue := ⟨[], [], false, false, none⟩

/-- An exhausted queue (drained, finished, exhaustion latched). -/
def qW2 : DataQueue := ⟨[], [], true, true, none⟩

/-- A drained, finished queue whose exhaustion is not yet latched: the next
pop latches it. -/
def qW3 : DataQueue := ⟨[], [], true, false, none⟩

/-- A cancellation error used to exercise the failure paths. -/
def errW : Err := ⟨.cancelled, "cancelled"⟩

/-- A queue whose next operation surfaces `errW`. -/
def qErrW : DataQueue := ⟨[], [], false, false, some errW⟩

/-- A legacy node whose next pull surfaces `errW`. -/
def nodeErrW : ExecNode := ⟨some errW, []⟩

/-- The expected successful outcome of `get_block` on `qW1` with output
buffer `staleW`. -/
def outC8 : GetBlockOut :=
  ⟨blockW, ⟨[], [clearW], false, false, none⟩, nodeA, .DEPEND_ON_SOURCE,
   [Ev.popQueue, Ev.pushFree]⟩

/-- The expected successful outcome of `get_block` on the exhausted queue
`qW2` with the immediately-EOS node `nodeA`. -/
def outC2 : GetBlockOut :=
  ⟨Block.empty, qW2, nodeA, .FINISHED, [Ev.pullNode]⟩

/-- A queue state reached by push, mark-finished, pop: drained and finished
but with exhaustion not yet latched. -/
def qC4 : DataQueue :=
  (((DataQueue.empty.push_ready blockW).mark_producer_finished).try_pop_ready).2

/-- Initial ownership state: the producer holds batches 7 and 8. -/
def s5w0 : OwnState := ⟨[7, 8], [], [], [], [], []⟩

/-- Ownership state after pushing 7 and 8 and popping once. -/
def s5w3 : OwnState := ⟨[], [8], [7], [], [7, 8], [7]⟩

/-- A scanner that was never initialized. -/
def scannerUninit : SchemaVariablesScanner := ⟨false, []⟩

/-- An initialized scanner holding one variable. -/
def scannerInit : SchemaVariablesScanner := ⟨true, [("a", "1")]⟩

/-- An initialized scanner whose fetched variable list is empty. -/
def scannerEmptyVars : SchemaVariablesScanner := ⟨true, []⟩

/-- Claim C6: `can_read()` returns true iff `has_data_or_finished()` on the
bound queue; in particular an empty queue whose producer has not finished
is not readable. -/
theorem C6_can_read_iff (q : DataQueue) :
    (StreamingAggSourceOperator.can_read q = q.has_data_or_finished) ∧
    (q.ready = [] → q.finished = false →
      StreamingAggSourceOperator.can_read q = false) := by
  refine ⟨rfl, ?_⟩
  intro h1 h2
  simp [StreamingAggSourceOperator.can_read, DataQueue.has_data_or_finished,
    h1, h2]

/-- Witness for C6 at the empty queue. -/
theorem C6_witness :
    (StreamingAggSourceOperator.can_read DataQueue.empty =
      DataQueue.empty.has_data_or_finished) ∧
    StreamingAggSourceOperator.can_read DataQueue.empty = false :=
  ⟨(C6_can_read_iff DataQueue.empty).1,
   (C6_can_read_iff DataQueue.empty).2 rfl rfl⟩

/-- Claim C9 counterexample: an initialized scanner called with a null block
pointer fails with `InternalError`, not `InvalidArgument`. -/
theorem C9_counterexample :
    errCodeOf (scannerInit.get_next_block none (some false)) =
      some ErrCode.internalError ∧
    errCodeOf (scannerInit.get_next_block none (some false)) ≠
      some ErrCode.invalidArgument := by
  exact ⟨rfl, by decide⟩

/-- Claim C9 (amended): `get_next_block` invoked before initialization fails
with `InternalError` ("call this before initial."), and an initialized
scanner invoked with a null block or eos pointer fails with
`InternalError` ("invalid parameter."). -/
theorem C9_amended_error_codes (s : SchemaVariablesScanner)
    (block : Option Block) (eos : Option Bool) :
    (s.is_init = false →
      s.get_next_block block eos =
        .error ⟨.internalError, "call this before initial."⟩) ∧
    (s.is_init = true → block = none ∨ eos = none →
      s.get_next_block block eos =
        .error ⟨.internalError, "invalid parameter."⟩) := by
  constructor
  · intro h
    simp [SchemaVariablesScanner.get_next_block, h]
  · intro h hn
    rcases hn with hb | he
    · subst hb
      cases eos <;> simp [SchemaVariablesScanner.get_next_block, h]
    · subst he
      cases block <;> simp [SchemaVariablesScanner.get_next_block, h]

/-- Witness for C9 (amended) at concrete scanners. -/
theorem C9_witness :
    (scannerUninit.get_next_block (some Block.empty) (some false) =
      .error ⟨.internalError, "call this before initial."⟩) ∧
    (scannerInit.get_next_block none (some false) =
      .error ⟨.internalError, "invalid parameter."⟩) :=
  ⟨(C9_amended_error_codes scannerUninit (some Block.empty) (some false)).1 rfl,
   (C9_amended_error_codes scannerInit none (some false)).2 rfl (Or.inl rfl)⟩

/-- Claim C10: every successful `get_next_block` call reports `*eos = true`
(the scanner delivers everything in at most one block), and with an empty
variable list it returns OK without appending any row to the caller's
block. -/
theorem C10_single_block_eos (s : SchemaVariablesScanner)
    (block : Option Block) (eos : Option Bool) (b1 : Block) (e1 : Bool)
    (h : s.get_next_block block eos = .ok (b1, e1)) :
    e1 = true ∧ (s.vars = [] → ∀ b, block = some b → b1 = b) := by
  unfold SchemaVariablesScanner.get_next_block at h
  by_cases hi : s.is_init
  · simp only [hi, Bool.not_true, Bool.false_eq_true, if_false] at h
    cases block with
    | none => simp at h
    | some b0 =>
      cases eos with
      | none => simp at h
      | some e0 =>
        by_cases hv : s.vars.isEmpty
        · simp only [hv, if_true] at h
          obtain ⟨hb, he⟩ := Prod.mk.injEq .. ▸ (Except.ok.injEq .. ▸ h)
          exact ⟨he.symm, fun _ b hbb => by
            cases hbb
            exact hb.symm⟩
        · simp only [hv, if_false, SchemaVariablesScanner.fill_block_impl] at h
          obtain ⟨hb, he⟩ := Prod.mk.injEq .. ▸ (Except.ok.injEq .. ▸ h)
          refine ⟨he.symm, fun hnil _ _ => ?_⟩
          rw [hnil] at hv
          simp at hv
  · simp [hi] at h

/-- Witness for C10 at an initialized scanner with no variables. -/
theorem C10_witness :
    true = true ∧
      (scannerEmptyVars.vars = [] →
        ∀ b, some Block.empty = some b → Block.empty = b) :=
  C10_single_block_eos scannerEmptyVars (some Block.empty) (some false)
    Block.empty true rfl

/-- Claim C3 (Scenario A): from a queue pre-loaded with three 100-row batches
whose producer has finished, three consecutive `get_block` calls return
those batches in order with state `DEPEND_ON_SOURCE`; the fourth call
falls through to the legacy node, and since the node reports EOS
immediately, that call returns `FINISHED` with an empty batch. -/
theorem C3_scenario_A :
    ∃ o1 o2 o3 o4 : GetBlockOut,
      StreamingAggSourceOperator.get_block 1 qA nodeA Block.empty = .ok o1 ∧
      o1.block = scenarioBlock 1 ∧ o1.block.rows = 100 ∧
      o1.source_state = .DEPEND_ON_SOURCE ∧
      StreamingAggSourceOperator.get_block 1 o1.queue o1.node Block.empty =
        .ok o2 ∧
      o2.block = scenarioBlock 2 ∧ o2.block.rows = 100 ∧
      o2.source_state = .DEPEND_ON_SOURCE ∧
      StreamingAggSourceOperator.get_block 1 o2.queue o2.node Block.empty =
        .ok o3 ∧
      o3.block = scenarioBlock 3 ∧ o3.block.rows = 100 ∧
      o3.source_state = .DEPEND_ON_SOURCE ∧
      StreamingAggSourceOperator.get_block 1 o3.queue o3.node Block.empty =
        .ok o4 ∧
      Ev.pullNode ∈ o4.events ∧ o4.source_state = .FINISHED ∧
      o4.block = Block.empty ∧ o4.block.rows = 0 := by
  refine ⟨_, _, _, _, rfl, rfl, rfl, rfl, rfl, rfl, rfl, rfl, rfl, rfl, rfl,
    rfl, rfl, ?_, rfl, rfl, rfl⟩
  decide

/-- For a fixed result of `pull`, the node reports EOS exactly when that
result's eos flag is set. -/
theorem reportsEos_iff (nd : ExecNode) (outB : Block) (eos : Bool)
    (nd1 : ExecNode) (hpull : nd.pull = .ok (outB, eos, nd1)) :
    nd.reportsEos ↔ eos = true := by
  constructor
  · rintro ⟨b1, n1, h1⟩
    rw [hpull] at h1
    simp only [Except.ok.injEq, Prod.mk.injEq] at h1
    exact h1.2.1
  · intro he
    exact ⟨outB, nd1, by rw [hpull, he]⟩

/-- Popping the ready sequence never touches the free-list. -/
theorem try_pop_ready_freeBlocks (q : DataQueue) :
    q.try_pop_ready.2.freeBlocks = q.freeBlocks := by
  unfold DataQueue.try_pop_ready
  cases q.ready with
  | nil => by_cases h : q.finished <;> simp [h]
  | cons b rest => rfl

/-- A successful `get_block_from_queue` leaves the free-list unchanged. -/
theorem get_block_from_queue_freeBlocks (q : DataQueue) (ob : Option Block)
    (q1 : DataQueue) (h : q.get_block_from_queue = .ok (ob, q1)) :
    q1.freeBlocks = q.freeBlocks := by
  unfold DataQueue.get_block_from_queue at h
  cases hp : q.pendingErr with
  | some e => rw [hp] at h; simp at h
  | none =>
    rw [hp] at h
    have h2 : q.try_pop_ready.2 = q1 := congrArg Prod.snd (Except.ok.inj h)
    rw [← h2]
    exact try_pop_ready_freeBlocks q

/-- Clearing at least as many columns as the block has leaves no row data. -/
theorem clear_column_data_no_rows (b : Block) (n : Nat)
    (hn : b.columns.length ≤ n) : (b.clear_column_data n).no_rows := by
  intro c hc
  unfold Block.clear_column_data at hc
  rw [List.drop_eq_nil_of_le hn, List.append_nil] at hc
  simp only [List.mem_map] at hc
  obtain ⟨c0, _, rfl⟩ := hc
  rfl

/-- Clearing row storage preserves every column's allocated capacity. -/
theorem clear_column_data_caps (b : Block) (n : Nat) :
    (b.clear_column_data n).columns.map Column.cap =
      b.columns.map Column.cap := by
  unfold Block.clear_column_data
  rw [List.map_append, List.map_map]
  conv_rhs => rw [← List.take_append_drop n b.columns]
  rw [List.map_append]
  rfl

/-- Claim C1: dispatch structure of `get_block` — with the queue not
exhausted, a pop that yields a batch (leaving the queue non-exhausted)
swaps that batch into the output block and recycles the cleared holder to
the free-list; a pop that latches exhaustion falls back to a synchronous
legacy-node pull in the same call; with the queue already exhausted at
entry, the call pulls directly from the legacy node. -/
theorem C1_get_block_dispatch (n : Nat) (q : DataQueue) (nd : ExecNode)
    (b : Block) :
    (q.data_exhausted = false →
      (∀ ab q1, q.get_block_from_queue = .ok (some ab, q1) →
        q1.data_exhausted = false →
        StreamingAggSourceOperator.get_block n q nd b =
          .ok ⟨ab, q1.push_free_block (b.clear_column_data n), nd,
               .DEPEND_ON_SOURCE, [Ev.popQueue, Ev.pushFree]⟩) ∧
      (∀ ob q1, q.get_block_from_queue = .ok (ob, q1) →
        q1.data_exhausted = true →
        StreamingAggSourceOperator.get_block n q nd b =
          pullFallback q1 nd [Ev.popQueue])) ∧
    (q.data_exhausted = true →
      StreamingAggSourceOperator.get_block n q nd b =
        pullFallback q nd []) := by
  refine ⟨fun hq => ⟨fun ab q1 hpop hq1 => ?_, fun ob q1 hpop hq1 => ?_⟩,
          fun hq => ?_⟩
  · unfold StreamingAggSourceOperator.get_block
    rw [hq, hpop]
    simp [hq1]
  · unfold StreamingAggSourceOperator.get_block pullFallback
    rw [hq, hpop]
    simp only [Bool.not_false, if_true, hq1]
    cases h2 : nd.pull with
    | error e => rfl
    | ok res => obtain ⟨outB, eos, nd1⟩ := res; rfl
  · unfold StreamingAggSourceOperator.get_block pullFallback
    rw [hq]
    simp only [Bool.not_true, Bool.false_eq_true, if_false]
    cases h2 : nd.pull with
    | error e => rfl
    | ok res => obtain ⟨outB, eos, nd1⟩ := res; rfl

/-- Witness for C1 exercising all three dispatch branches. -/
theorem C1_witness :
    (StreamingAggSourceOperator.get_block 1 qW1 nodeA staleW =
       .ok ⟨blockW, qW1pop.push_free_block (staleW.clear_column_data 1),
            nodeA, .DEPEND_ON_SOURCE, [Ev.popQueue, Ev.pushFree]⟩) ∧
    (StreamingAggSourceOperator.get_block 1 qW3 nodeA staleW =
       pullFallback qW2 nodeA [Ev.popQueue]) ∧
    (StreamingAggSourceOperator.get_block 1 qW2 nodeA staleW =
       pullFallback qW2 nodeA []) :=
  ⟨((C1_get_block_dispatch 1 qW1 nodeA staleW).1 rfl).1 blockW qW1pop rfl rfl,
   ((C1_get_block_dispatch 1 qW3 nodeA staleW).1 rfl).2 none qW2 rfl rfl,
   (C1_get_block_dispatch 1 qW2 nodeA staleW).2 rfl⟩

/-- Claim C2: a successful `get_block` reports `FINISHED` exactly when the
legacy-node pull was invoked in that call and reported end-of-stream; in
every other successful case it reports `DEPEND_ON_SOURCE`, and it never
reports `RUNNING`. -/
theorem C2_finished_iff_eos (n : Nat) (q : DataQueue) (nd : ExecNode)
    (b : Block) (out : GetBlockOut)
    (h : StreamingAggSourceOperator.get_block n q nd b = .ok out) :
    (out.source_state = .FINISHED ↔
      Ev.pullNode ∈ out.events ∧ nd.reportsEos) ∧
    (out.source_state ≠ .FINISHED → out.source_state = .DEPEND_ON_SOURCE) ∧
    out.source_state ≠ .RUNNING := by
  unfold StreamingAggSourceOperator.get_block at h
  by_cases hq : q.data_exhausted
  · simp only [hq, Bool.not_true, Bool.false_eq_true, if_false] at h
    cases hpull : nd.pull with
    | error e => rw [hpull] at h; simp at h
    | ok res =>
      obtain ⟨outB, eos, nd1⟩ := res
      rw [hpull] at h
      obtain rfl := Except.ok.inj h
      cases eos with
      | false => simp [reportsEos_iff nd outB false nd1 hpull]
      | true => simp [reportsEos_iff nd outB true nd1 hpull]
  · rw [Bool.not_eq_true] at hq
    simp only [hq, Bool.not_false, if_true] at h
    cases hpop : q.get_block_from_queue with
    | error e => rw [hpop] at h; simp at h
    | ok res =>
      obtain ⟨ob, q1⟩ := res
      rw [hpop] at h
      by_cases hq1 : q1.data_exhausted
      · simp only [hq1, if_true] at h
        cases hpull : nd.pull with
        | error e => rw [hpull] at h; simp at h
        | ok res2 =>
          obtain ⟨outB, eos, nd1⟩ := res2
          rw [hpull] at h
          obtain rfl := Except.ok.inj h
          cases eos with
          | false => simp [reportsEos_iff nd outB false nd1 hpull]
          | true => simp [reportsEos_iff nd outB true nd1 hpull]
      · simp only [hq1, Bool.false_eq_true, if_false] at h
        cases ob with
        | none => simp at h
        | some ab =>
          obtain rfl := Except.ok.inj h
          simp

/-- Witness for C2 at an exhausted queue with an immediately-EOS node. -/
theorem C2_witness :
    (outC2.source_state = .FINISHED ↔
      Ev.pullNode ∈ outC2.events ∧ nodeA.reportsEos) ∧
    (outC2.source_state ≠ .FINISHED →
      outC2.source_state = .DEPEND_ON_SOURCE) ∧
    outC2.source_state ≠ .RUNNING :=
  C2_finished_iff_eos 1 qW2 nodeA Block.empty outC2 rfl

/-- Claim C7: a non-OK status from the queue pop or from the legacy-node pull
aborts `get_block` immediately — the failed status is returned as-is, and
the ghost trace shows no further queue or node operation and no retry. -/
theorem C7_error_propagation (n : Nat) (q : DataQueue) (nd : ExecNode)
    (b : Block) (e : Err) :
    (q.data_exhausted = false → q.get_block_from_queue = .error e →
      StreamingAggSourceOperator.get_block n q nd b =
          .error (e, [Ev.popQueue]) ∧
        Ev.pullNode ∉ [Ev.popQueue] ∧ Ev.pushFree ∉ [Ev.popQueue]) ∧
    (∀ ob q1, q.data_exhausted = false →
      q.get_block_from_queue = .ok (ob, q1) → q1.data_exhausted = true →
      nd.pull = .error e →
      StreamingAggSourceOperator.get_block n q nd b =
          .error (e, [Ev.popQueue, Ev.pullNode]) ∧
        Ev.pushFree ∉ [Ev.popQueue, Ev.pullNode]) ∧
    (q.data_exhausted = true → nd.pull = .error e →
      StreamingAggSourceOperator.get_block n q nd b =
          .error (e, [Ev.pullNode]) ∧
        Ev.popQueue ∉ [Ev.pullNode] ∧ Ev.pushFree ∉ [Ev.pullNode]) := by
  refine ⟨fun hq hpop => ⟨?_, by decide, by decide⟩,
          fun ob q1 hq hpop hq1 hpull => ⟨?_, by decide⟩,
          fun hq hpull => ⟨?_, by decide, by decide⟩⟩
  · unfold StreamingAggSourceOperator.get_block
    rw [hq, hpop]
    rfl
  · unfold StreamingAggSourceOperator.get_block
    rw [hq, hpop]
    simp [hq1, hpull]
  · unfold StreamingAggSourceOperator.get_block
    rw [hq, hpull]
    rfl

/-- Witness for C7 exercising the three failure branches. -/
theorem C7_witness :
    (StreamingAggSourceOperator.get_block 1 qErrW nodeA Block.empty =
        .error (errW, [Ev.popQueue]) ∧
      Ev.pullNode ∉ [Ev.popQueue] ∧ Ev.pushFree ∉ [Ev.popQueue]) ∧
    (StreamingAggSourceOperator.get_block 1 qW3 nodeErrW Block.empty =
        .error (errW, [Ev.popQueue, Ev.pullNode]) ∧
      Ev.pushFree ∉ [Ev.popQueue, Ev.pullNode]) ∧
    (StreamingAggSourceOperator.get_block 1 qW2 nodeErrW Block.empty =
        .error (errW, [Ev.pullNode]) ∧
      Ev.popQueue ∉ [Ev.pullNode] ∧ Ev.pushFree ∉ [Ev.pullNode]) :=
  ⟨(C7_error_propagation 1 qErrW nodeA Block.empty errW).1 rfl rfl,
   (C7_error_propagation 1 qW3 nodeErrW Block.empty errW).2.1 none qW2
     rfl rfl rfl rfl,
   (C7_error_propagation 1 qW2 nodeErrW Block.empty errW).2.2 rfl rfl⟩

/-- Claim C8: any batch newly recycled into the free-list by a successful
`get_block` call is the cleared former output buffer — its row storage for
the materialized slots is gone (no stale rows) while its column capacities
remain allocated. -/
theorem C8_recycled_blocks_cleared (n : Nat) (q : DataQueue) (nd : ExecNode)
    (b : Block) (out : GetBlockOut)
    (h : StreamingAggSourceOperator.get_block n q nd b = .ok out)
    (hn : b.columns.length ≤ n) :
    ∀ fb ∈ out.queue.freeBlocks, fb ∉ q.freeBlocks →
      fb = b.clear_column_data n ∧ fb.no_rows ∧
      fb.columns.map Column.cap = b.columns.map Column.cap := by
  intro fb hfb hnot
  unfold StreamingAggSourceOperator.get_block at h
  by_cases hq : q.data_exhausted
  · simp only [hq, Bool.not_true, Bool.false_eq_true, if_false] at h
    cases hpull : nd.pull with
    | error e => rw [hpull] at h; simp at h
    | ok res =>
      obtain ⟨outB, eos, nd1⟩ := res
      rw [hpull] at h
      obtain rfl := Except.ok.inj h
      exact absurd hfb hnot
  · rw [Bool.not_eq_true] at hq
    simp only [hq, Bool.not_false, if_true] at h
    cases hpop : q.get_block_from_queue with
    | error e => rw [hpop] at h; simp at h
    | ok res =>
      obtain ⟨ob, q1⟩ := res
      rw [hpop] at h
      by_cases hq1 : q1.data_exhausted
      · simp only [hq1, if_true] at h
        cases hpull : nd.pull with
        | error e => rw [hpull] at h; simp at h
        | ok res2 =>
          obtain ⟨outB, eos, nd1⟩ := res2
          rw [hpull] at h
          obtain rfl := Except.ok.inj h
          change fb ∈ q1.freeBlocks at hfb
          rw [get_block_from_queue_freeBlocks q ob q1 hpop] at hfb
          exact absurd hfb hnot
      · simp only [hq1, Bool.false_eq_true, if_false] at h
        cases ob with
        | none => simp at h
        | some ab =>
          obtain rfl := Except.ok.inj h
          change fb ∈ (q1.push_free_block (b.clear_column_data n)).freeBlocks
            at hfb
          unfold DataQueue.push_free_block at hfb
          simp only [List.mem_append, List.mem_singleton] at hfb
          rw [get_block_from_queue_freeBlocks q (some ab) q1 hpop] at hfb
          rcases hfb with hin | rfl
          · exact absurd hin hnot
          · exact ⟨rfl, clear_column_data_no_rows b n hn,
                   clear_column_data_caps b n⟩

/-- Witness for C8: the recycled buffer `staleW` comes back with its row
storage cleared and its capacity kept. -/
theorem C8_witness :
    clearW = staleW.clear_column_data 1 ∧ clearW.no_rows ∧
      clearW.columns.map Column.cap = staleW.columns.map Column.cap :=
  C8_recycled_blocks_cleared 1 qW1 nodeA staleW outC8 rfl (by decide) clearW
    (by decide) (by decide)

/-- Claim C4 counterexample: after push, mark-producer-finished and a
successful pop, the queue is drained and finished yet `is_exhausted()`
still reports false — refuting the claimed "true iff finished flag set
and ready sequence empty" equivalence. -/
theorem C4_counterexample :
    qC4.finished = true ∧ qC4.ready = [] ∧ qC4.is_exhausted = false :=
  ⟨rfl, rfl, rfl⟩

/-- Claim C4 (amended): exhaustion is latched — `is_exhausted()` implies the
producer has finished and the ready sequence is empty (on well-formed
states, preserved by every operation); a pop attempted on a drained,
finished queue latches the flag; and once true the flag never reverts
under any later queue operation. -/
theorem C4_exhausted_latched_monotone (q : DataQueue) (op : QOp) :
    (q.WF → (q.apply op).WF) ∧
    (q.is_exhausted = true → (q.apply op).is_exhausted = true) ∧
    (q.WF → q.is_exhausted = true → q.finished = true ∧ q.ready = []) ∧
    (q.finished = true → q.ready = [] →
      q.try_pop_ready.2.is_exhausted = true) := by
  refine ⟨?_, ?_, fun hwf hex => hwf hex, fun hf hr => by
    simp [DataQueue.try_pop_ready, hr, hf, DataQueue.is_exhausted]⟩
  · intro hwf
    cases op with
    | push_ready b =>
      by_cases hf : q.finished
      · simpa [DataQueue.apply, DataQueue.push_ready, hf] using hwf
      · intro hex
        simp only [DataQueue.apply, DataQueue.push_ready, hf, if_false] at hex
        exact absurd (hwf hex).1 hf
    | try_pop_ready =>
      cases hr : q.ready with
      | nil =>
        by_cases hf : q.finished
        · intro _
          simp [DataQueue.apply, DataQueue.try_pop_ready, hr, hf]
        · simpa [DataQueue.apply, DataQueue.try_pop_ready, hr, hf] using hwf
      | cons b rest =>
        intro hex
        simp only [DataQueue.apply, DataQueue.try_pop_ready, hr] at hex
        have h2 := (hwf hex).2
        rw [hr] at h2
        cases h2
    | push_free b => exact hwf
    | try_pop_free =>
      cases hfr : q.freeBlocks with
      | nil => simpa [DataQueue.apply, DataQueue.try_pop_free, hfr] using hwf
      | cons b rest =>
        simpa [DataQueue.apply, DataQueue.try_pop_free, hfr] using hwf
    | mark_producer_finished =>
      intro hex
      exact ⟨rfl, (hwf hex).2⟩
  · intro hex
    simp only [DataQueue.is_exhausted] at hex
    cases op with
    | push_ready b =>
      by_cases hf : q.finished <;>
        simp [DataQueue.apply, DataQueue.push_ready, hf,
          DataQueue.is_exhausted, hex]
    | try_pop_ready =>
      cases hr : q.ready with
      | nil =>
        by_cases hf : q.finished <;>
          simp [DataQueue.apply, DataQueue.try_pop_ready, hr, hf,
            DataQueue.is_exhausted, hex]
      | cons b rest =>
        simp [DataQueue.apply, DataQueue.try_pop_ready, hr,
          DataQueue.is_exhausted, hex]
    | push_free b =>
      simpa [DataQueue.apply, DataQueue.push_free_block,
        DataQueue.is_exhausted] using hex
    | try_pop_free =>
      cases hfr : q.freeBlocks with
      | nil =>
        simpa [DataQueue.apply, DataQueue.try_pop_free, hfr,
          DataQueue.is_exhausted] using hex
      | cons b rest =>
        simpa [DataQueue.apply, DataQueue.try_pop_free, hfr,
          DataQueue.is_exhausted] using hex
    | mark_producer_finished =>
      simpa [DataQueue.apply, DataQueue.mark_producer_finished,
        DataQueue.is_exhausted] using hex

/-- Witness for C4 (amended) on a drained, finished queue and on a latched
queue. -/
theorem C4_witness :
    (qW3.apply QOp.try_pop_ready).WF ∧
    (qW2.apply (QOp.push_ready blockW)).is_exhausted = true ∧
    (qW2.finished = true ∧ qW2.ready = []) ∧
    qW3.try_pop_ready.2.is_exhausted = true :=
  ⟨(C4_exhausted_latched_monotone qW3 QOp.try_pop_ready).1
     (fun hex => Bool.noConfusion hex),
   (C4_exhausted_latched_monotone qW2 (QOp.push_ready blockW)).2.1 rfl,
   (C4_exhausted_latched_monotone qW2 (QOp.push_ready blockW)).2.2.1
     (fun _ => ⟨rfl, rfl⟩) rfl,
   (C4_exhausted_latched_monotone qW3 QOp.try_pop_ready).2.2.2 rfl rfl⟩

/-- Every ownership step preserves the multiset of batches, hence no batch is
duplicated or lost by any queue operation. -/
theorem ownStep_bag {s t : OwnState} (h : OwnStep s t) :
    t.allOf.Perm s.allOf := by
  cases h with
  | push_ready b hb =>
    have hcnt : 0 < List.count b s.producer := List.count_pos_iff.mpr hb
    rw [List.perm_iff_count]
    intro a
    by_cases hab : a = b
    · subst hab
      simp only [OwnState.allOf, List.count_append, List.count_erase_self,
        List.count_singleton_self]
      omega
    · simp only [OwnState.allOf, List.count_append,
        List.count_erase_of_ne hab,
        List.count_eq_zero_of_not_mem (by simp [hab] : a ∉ [b])]
      omega
  | pop_ready b rest hr =>
    rw [List.perm_iff_count]
    intro a
    by_cases hab : a = b
    · subst hab
      simp only [OwnState.allOf, List.count_append, hr, List.count_nil,
        List.count_cons_self, List.count_singleton_self]
      omega
    · simp only [OwnState.allOf, List.count_append, hr, List.count_nil,
        List.count_cons_of_ne hab,
        List.count_eq_zero_of_not_mem (by simp [hab] : a ∉ [b])]
      omega
  | push_free b hb =>
    have hcnt : 0 < List.count b s.consumer := List.count_pos_iff.mpr hb
    rw [List.perm_iff_count]
    intro a
    by_cases hab : a = b
    · subst hab
      simp only [OwnState.allOf, List.count_append, List.count_erase_self,
        List.count_singleton_self]
      omega
    · simp only [OwnState.allOf, List.count_append,
        List.count_erase_of_ne hab,
        List.count_eq_zero_of_not_mem (by simp [hab] : a ∉ [b])]
      omega
  | pop_free b rest hfr =>
    rw [List.perm_iff_count]
    intro a
    by_cases hab : a = b
    · subst hab
      simp only [OwnState.allOf, List.count_append, hfr, List.count_nil,
        List.count_cons_self, List.count_singleton_self]
      omega
    · simp only [OwnState.allOf, List.count_append, hfr, List.count_nil,
        List.count_cons_of_ne hab,
        List.count_eq_zero_of_not_mem (by simp [hab] : a ∉ [b])]
      omega

/-- Every ownership step preserves the FIFO ghost invariant: the popped
history followed by the current ready sequence is the pushed history. -/
theorem ownStep_fifo {s t : OwnState} (h : OwnStep s t)
    (hf : s.popped ++ s.ready = s.pushed) :
    t.popped ++ t.ready = t.pushed := by
  cases h with
  | push_ready b hb =>
    show s.popped ++ (s.ready ++ [b]) = s.pushed ++ [b]
    rw [← List.append_assoc, hf]
  | pop_ready b rest hr =>
    show (s.popped ++ [b]) ++ rest = s.pushed
    rw [List.append_assoc]
    change s.popped ++ (b :: rest) = s.pushed
    rw [← hr, hf]
  | push_free b hb => exact hf
  | pop_free b rest hfr => exact hf

/-- Claim C5: along every sequence of queue operations from an initial state,
pop order equals push order (the popped history plus the remaining ready
sequence is exactly the pushed history, in order), and the batches ever
present are neither duplicated nor lost — the four holders (producer,
ready sequence, consumer, free-list) form a permutation of the initial
population, and with a duplicate-free initial population no batch is ever
held in two places at once. -/
theorem C5_fifo_and_ownership (s0 s : OwnState) (h : OwnReach s0 s)
    (hinit : s0.Init) (hnd : s0.allOf.Nodup) :
    (s.popped ++ s.ready = s.pushed) ∧ s.allOf.Perm s0.allOf ∧
    s.allOf.Nodup := by
  induction h with
  | refl =>
    refine ⟨?_, List.Perm.refl _, hnd⟩
    rw [hinit.1, hinit.2.1, hinit.2.2]
    rfl
  | step hr hst ih =>
    obtain ⟨ihf, ihp, ihn⟩ := ih
    have hbag := ownStep_bag hst
    exact ⟨ownStep_fifo hst ihf, hbag.trans ihp, hbag.symm.nodup ihn⟩

/-- Witness for C5: pushing batches 7 and 8 and popping once yields popped
history `[7]` with `[8]` still ready, matching push order, and the batch
population `{8, 7}` is a duplicate-free permutation of the initial
`{7, 8}`. -/
theorem C5_witness :
    (s5w3.popped ++ s5w3.ready = s5w3.pushed) ∧ s5w3.allOf.Perm s5w0.allOf ∧
    s5w3.allOf.Nodup :=
  C5_fifo_and_ownership s5w0 s5w3
    (OwnReach.step
      (OwnReach.step
        (OwnReach.step OwnReach.refl (OwnStep.push_ready s5w0 7 (by decide)))
        (OwnStep.push_ready _ 8 (by decide)))
      (OwnStep.pop_ready _ 7 [8] rfl))
    ⟨rfl, rfl, rfl⟩ (by decide)

end Doris
